import Mathlib

/-!
Verification development for the jots-body-tracker plugin core:
the OAuth token lifecycle manager (`GoogleFitService` in
src/unnamed/part_004), the OAuth callback server
(src/src/services/oauth-server.ts) and the idempotent journal merge
engine (`JournalService` in src/unnamed/part_003, final revision).

Conventions of the shallow embedding:
- JavaScript strings are Lean `String`s; a token field cleared to `''`
  or left `undefined` is modelled as `""` (both are falsy in JS and the
  source only ever tests these fields for truthiness).
- `googleTokenExpiry : number | undefined` is `Option Int`
  (milliseconds), `googleAuthState : string | undefined` is
  `Option String`.
- Every network interaction is an oracle parameter: the response the
  provider would return.  Time (`Date.now()`) is an explicit parameter.
- Side effects are returned as an event trace (`Ev`): calls to the
  token endpoint, persisted settings snapshots (`onSettingsChange`),
  and `setTimeout` delays.
-/

/-- The persisted Google credential slice of `Settings`
(src/unnamed/part_002 lines 199-202): `googleAccessToken?`,
`googleRefreshToken?`, `googleTokenExpiry?`, `googleAuthState?`. -/
structure Credential where
  googleAccessToken : String
  googleRefreshToken : String
  googleTokenExpiry : Option Int
  googleAuthState : Option String
deriving Repr, DecidableEq

/-- The initial credential: none of the Google token fields are set in
`DEFAULT_SETTINGS` (src/unnamed/part_002 lines 206-229). -/
def Credential.empty : Credential :=
  { googleAccessToken := ""
    googleRefreshToken := ""
    googleTokenExpiry := none
    googleAuthState := none }

/-- Spec invariant on the credential: if an access token is present
then an expiry is present (a refresh token alone is a valid state). -/
def Credential.wf (c : Credential) : Prop :=
  c.googleAccessToken ≠ "" → c.googleTokenExpiry ≠ none

instance (c : Credential) : Decidable c.wf := by
  unfold Credential.wf; infer_instance

/-- JavaScript truthiness of an optional number: `undefined` and `0`
are falsy. -/
def numTruthy : Option Int → Bool
  | none => false
  | some v => v != 0

/-- Parsed JSON body of a token-endpoint response.  A missing
`access_token` / `refresh_token` field is modelled as `""` (the source
only tests these for truthiness, and `''` is falsy like `undefined`). -/
structure TokenBody where
  access_token : String
  refresh_token : String
  expires_in : Int
deriving Repr, DecidableEq

/-- Outcome of the `fetch` to the token endpoint performed by
`refreshAccessToken` (src/unnamed/part_004 lines 188-229). -/
inductive RefreshHttpResult where
  /-- `fetch` itself rejected (network failure). -/
  | fetchError
  /-- `response.ok` was false; `errorCode` is the `error` field of the
  parsed JSON body, `none` when the body was not JSON or had no such
  field. -/
  | httpError (status : Nat) (errorCode : Option String)
  /-- `response.ok` was true and the body parsed to `body`. -/
  | ok (body : TokenBody)
deriving Repr, DecidableEq

/-- The distinct failure modes of the token lifecycle, one per error
message thrown in src/unnamed/part_004. -/
inductive TokenError where
  /-- `'Not authenticated with Google Fit. Please disconnect and
  reconnect your account.'` (refreshTokenIfNeeded). -/
  | notAuthenticated
  /-- `'Failed to refresh token - please reconnect your account'`
  (invalid_grant / invalid_token). -/
  | reconnectRequired
  /-- `'Failed to refresh token - please try again later'`
  (transient: network, 5xx, malformed body). -/
  | tryAgainLater
  /-- `'No refresh token available'` (refreshAccessToken guard). -/
  | noRefreshToken
  /-- `'Invalid authentication state'` (completeAuthentication). -/
  | invalidState
  /-- exchange `request` threw or its body failed validation
  (completeAuthentication catch path rethrows it). -/
  | exchangeFailed
deriving Repr, DecidableEq

/-- The spec's `AuthRequired` class of failures: the user must
re-authenticate. -/
def TokenError.isAuthRequired : TokenError → Bool
  | .notAuthenticated => true
  | .reconnectRequired => true
  | _ => false

/-- Observable side effects, in program order. -/
inductive Ev where
  /-- an HTTP call to the OAuth token endpoint was dispatched. -/
  | tokenEndpointCall
  /-- `onSettingsChange` persisted this credential snapshot. -/
  | persist (c : Credential)
  /-- `setTimeout`-based delay of `n` milliseconds. -/
  | delayMs (n : Nat)
deriving Repr, DecidableEq

/-- `GoogleFitService.refreshAccessToken` (src/unnamed/part_004 lines
182-247).  `now` is `Date.now()` at the time the success branch stamps
the new expiry; `r` is the token endpoint's response.  Returns the
updated credential, the event trace, and the outcome. -/
def refreshAccessToken (c : Credential) (now : Int) (r : RefreshHttpResult) :
    Credential × List Ev × Except TokenError Unit :=
  if c.googleRefreshToken = "" then
    (c, [], .error .noRefreshToken)
  else
    match r with
    | .fetchError =>
        -- fetch threw: caught by the catch block, message does not
        -- contain 'please reconnect', rethrown as retriable
        (c, [.tokenEndpointCall], .error .tryAgainLater)
    | .httpError status errorCode =>
        if (status = 400 ∨ status = 401) ∧
            (errorCode = some "invalid_grant" ∨ errorCode = some "invalid_token") then
          let c' := { c with googleAccessToken := ""
                             googleRefreshToken := ""
                             googleTokenExpiry := none }
          (c', [.tokenEndpointCall, .persist c'], .error .reconnectRequired)
        else
          (c, [.tokenEndpointCall], .error .tryAgainLater)
    | .ok body =>
        if body.access_token = "" then
          -- 'Invalid response from token endpoint', rethrown by the
          -- catch block as retriable
          (c, [.tokenEndpointCall], .error .tryAgainLater)
        else
          let c' := { c with
            googleAccessToken := body.access_token
            googleTokenExpiry := some (now + body.expires_in * 1000)
            googleRefreshToken :=
              if body.refresh_token ≠ "" then body.refresh_token
              else c.googleRefreshToken }
          (c', [.tokenEndpointCall, .persist c'], .ok ())

/-- The retry loop of `refreshTokenIfNeeded` (src/unnamed/part_004
lines 272-299): `while (retryCount > 0)` attempts `refreshAccessToken`,
rethrows immediately on a 'please reconnect' error, otherwise
decrements and sleeps 1000 ms between attempts, and finally rethrows
the last error.  `nows i` / `rs i` are the clock and the endpoint's
response at attempt `i`. -/
def refreshLoop (nows : Nat → Int) (rs : Nat → RefreshHttpResult) :
    Credential → Nat → Nat → Option TokenError →
    Credential × List Ev × Except TokenError Unit
  | c, _, 0, lastErr =>
      (c, [], match lastErr with
              | some e => .error e
              | none => .ok ())
  | c, i, retryCount + 1, _ =>
      match refreshAccessToken c (nows i) (rs i) with
      | (c', evs, .ok ()) => (c', evs, .ok ())
      | (c', evs, .error e) =>
          if e = .reconnectRequired then
            (c', evs, .error e)
          else if retryCount > 0 then
            let rest := refreshLoop nows rs c' (i + 1) retryCount (some e)
            (rest.1, evs ++ [.delayMs 1000] ++ rest.2.1, rest.2.2)
          else
            (c', evs, .error e)

/-- `GoogleFitService.refreshTokenIfNeeded` (src/unnamed/part_004
lines 249-301) — the spec's `ensureValidToken` gatekeeper.  `now` is
`Date.now()` at entry; `nows`/`rs` feed the individual refresh
attempts. -/
def refreshTokenIfNeeded (c : Credential) (now : Int)
    (nows : Nat → Int) (rs : Nat → RefreshHttpResult) :
    Credential × List Ev × Except TokenError Unit :=
  if c.googleAccessToken = "" ∧ c.googleRefreshToken = "" then
    (c, [], .error .notAuthenticated)
  else
    -- `const expiryTime = this.settings.googleTokenExpiry || 0` is
    -- `c.googleTokenExpiry.getD 0` (`x || 0` maps both `undefined` and
    -- the falsy number 0 to 0), and `!googleTokenExpiry` is
    -- `numTruthy c.googleTokenExpiry = false`
    if c.googleAccessToken = "" ∨ numTruthy c.googleTokenExpiry = false ∨
        now ≥ c.googleTokenExpiry.getD 0 - 300000 then
      if c.googleRefreshToken = "" then
        let c' := { c with googleAccessToken := ""
                           googleTokenExpiry := none }
        (c', [.persist c'], .error .notAuthenticated)
      else
        refreshLoop nows rs c 0 2 none
    else
      (c, [], .ok ())

/-- Outcome of the authorization-code exchange `request` performed by
`completeAuthentication` (src/unnamed/part_004 lines 127-142). -/
inductive ExchangeResult where
  /-- `request` rejected, or `JSON.parse(response)` threw. -/
  | requestError
  /-- the response parsed to `tokens`. -/
  | ok (tokens : TokenBody)
deriving Repr, DecidableEq

/-- `GoogleFitService.completeAuthentication` (src/unnamed/part_004
lines 121-173).  `now` is `Date.now()` when the success branch stamps
the expiry; `r` is the exchange outcome. -/
def completeAuthentication (c : Credential) (code state : String)
    (now : Int) (r : ExchangeResult) :
    Credential × List Ev × Except TokenError Unit :=
  -- `if (state !== this.settings.googleAuthState) throw` — comparing a
  -- string against `undefined` is always a mismatch
  if c.googleAuthState ≠ some state then
    (c, [], .error .invalidState)
  else
    -- the `request` is dispatched; any failure from here on lands in
    -- the catch block, which clears the three token fields, persists
    -- the cleared snapshot and rethrows
    match r with
    | .requestError =>
        let c' := { c with googleAccessToken := ""
                           googleRefreshToken := ""
                           googleTokenExpiry := none }
        (c', [.tokenEndpointCall, .persist c'], .error .exchangeFailed)
    | .ok tokens =>
        if tokens.access_token = "" ∨ tokens.refresh_token = "" then
          -- 'Invalid token response - missing required tokens'
          let c' := { c with googleAccessToken := ""
                             googleRefreshToken := ""
                             googleTokenExpiry := none }
          (c', [.tokenEndpointCall, .persist c'], .error .exchangeFailed)
        else
          let c' := { c with
            googleAccessToken := tokens.access_token
            googleRefreshToken := tokens.refresh_token
            googleTokenExpiry := some (now + tokens.expires_in * 1000) }
          (c', [.tokenEndpointCall, .persist c'], .ok ())

/-- `GoogleFitService.rateLimit` (src/unnamed/part_004 lines 52-61).
State is the `lastRequestTime` field; `now` is `Date.now()` at entry.
Returns the dispatch time (the moment control continues past the gate,
i.e. `Date.now()` after the optional `setTimeout` wait, assuming the
timer fires exactly after the requested interval) and the new
`lastRequestTime`, which the source sets to that same moment. -/
def rateLimit (lastRequestTime now : Int) : Int × Int :=
  let timeSinceLastRequest := now - lastRequestTime
  if timeSinceLastRequest < 1000 then
    let t := now + (1000 - timeSinceLastRequest)
    (t, t)
  else
    (now, now)

/-- Dispatch times of the two outbound data requests made by one
`GoogleFitService.getMeasurements` call (src/unnamed/part_004 lines
303-345) when the stored token is valid (so `refreshTokenIfNeeded`
makes no network call): a single `rateLimit()` gate, then the weight
request is dispatched, and the body-fat request is dispatched as soon
as the weight response arrives (`weightLatency` ≥ 0 ms later) with no
further gating in between. -/
def getMeasurementsDispatchTimes (lastRequestTime now weightLatency : Int) :
    Int × Int :=
  let gate := rateLimit lastRequestTime now
  (gate.1, gate.1 + weightLatency)

/-- Result type resolved by the OAuth callback server's promise
(src/src/services/oauth-server.ts lines 3-6). -/
structure OAuthCallbackParams where
  code : String
  state : String
deriving Repr, DecidableEq

/-- JavaScript truthiness of `URLSearchParams.get` results: `null`
and `''` are falsy. -/
def strOptTruthy : Option String → Bool
  | none => false
  | some s => s != ""

/-- The value `OAuthCallbackServer.handleCallback`
(src/src/services/oauth-server.ts lines 218-243) passes to the pending
promise's resolver: the missing-parameter branch resolves with
`{ code: '', state: '' }`, the valid branch resolves with the received
pair. -/
def handleCallbackResult (code state : Option String) : OAuthCallbackParams :=
  if strOptTruthy code && strOptTruthy state then
    { code := code.getD "", state := state.getD "" }
  else
    { code := "", state := "" }

/-- The sentinel `waitForCallback` resolves with when its 5-minute
timeout fires before any request arrives
(src/src/services/oauth-server.ts line 258): `{ code: '', state: '' }`. -/
def waitForCallbackTimeoutResult : OAuthCallbackParams :=
  { code := "", state := "" }

/-- The JavaScript `\s` whitespace class, restricted to the ASCII
characters that can occur in the documents at hand (space, tab,
newline, carriage return, form feed, vertical tab). -/
def isWs (ch : Char) : Bool :=
  ch = ' ' || ch = '\t' || ch = '\n' || ch = '\r' ||
  ch = '\x0b' || ch = '\x0c'

/-- `text.replace(/^>?\s*/, '')` — drop one leading `>` if present,
then all following whitespace (the callout-marker strip in
`JournalService.hasExistingEntry`, src/unnamed/part_003 line 203). -/
def stripCalloutMarker (s : List Char) : List Char :=
  let s1 := match s with
            | '>' :: rest => rest
            | _ => s
  s1.dropWhile isWs

/-- `text.replace(/^\s*-\s*\[[^\]]+\]\s*/, '')` — drop a leading task
marker `- [x]` (with at least one character inside the brackets) when
the whole pattern matches from the start, else leave the text unchanged
(src/unnamed/part_003 line 204). -/
def stripTaskMarker (s : List Char) : List Char :=
  match (s.dropWhile isWs) with
  | '-' :: rest =>
      match (rest.dropWhile isWs) with
      | '[' :: rest2 =>
          let inside := rest2.takeWhile (fun ch => ch ≠ ']')
          match (rest2.dropWhile (fun ch => ch ≠ ']')) with
          | ']' :: rest3 =>
              if inside.length ≥ 1 then rest3.dropWhile isWs else s
          | _ => s
      | _ => s
  | _ => s

/-- JavaScript `String.prototype.trim` on a character list. -/
def jsTrim (s : List Char) : List Char :=
  ((s.dropWhile isWs).reverse.dropWhile isWs).reverse

/-- The `normalizeEntry` closure of `JournalService.hasExistingEntry`
(src/unnamed/part_003 lines 202-206): strip a callout marker, strip a
task marker, trim. -/
def normalizeEntry (s : List Char) : List Char :=
  jsTrim (stripTaskMarker (stripCalloutMarker s))

/-- `content.split('\n')`:  splitting a character list on newlines;
the empty text yields one empty line, a trailing newline yields a
final empty line, exactly as in JavaScript. -/
def splitLines : List Char → List (List Char)
  | [] => [[]]
  | ch :: rest =>
      if ch = '\n' then
        [] :: splitLines rest
      else
        match splitLines rest with
        | l :: ls => (ch :: l) :: ls
        | [] => [[ch]]

/-- `JournalService.hasExistingEntry` (src/unnamed/part_003 lines
200-212): true iff some line of `content` normalizes to the normalized
`entry`. -/
def hasExistingEntry (content entry : List Char) : Bool :=
  (splitLines content).any (fun line =>
    decide (normalizeEntry line = normalizeEntry entry))

/-- `fileContent.replace(/\n+$/, '')` — drop the trailing run of
newlines. -/
def stripTrailingNewlines (s : List Char) : List Char :=
  (s.reverse.dropWhile (fun ch => ch = '\n')).reverse

/-- `fileContent.endsWith('\n')`. -/
def endsWithNewline (s : List Char) : Bool :=
  match s.reverse with
  | '\n' :: _ => true
  | _ => false

/-- The newline preparation of `JournalService.appendToJournal` before
an entry is added (src/unnamed/part_003 lines 265-273): for non-empty
content, callout mode collapses trailing newlines to exactly one and
plain mode ensures one trailing newline. -/
def prepareContent (fileContent : List Char) (callout : Bool) : List Char :=
  if fileContent ≠ [] then
    if callout then
      stripTrailingNewlines fileContent ++ ['\n']
    else if endsWithNewline fileContent = false then
      fileContent ++ ['\n']
    else
      fileContent
  else
    fileContent

/-- The per-entry merge step of `JournalService.appendToJournal`
(src/unnamed/part_003 lines 263-281), acting on the already-read file
content and the already-rendered entry: if an equivalent entry exists
the content is returned unchanged (no write happens); otherwise the
entry plus a newline is appended to the prepared content and written
back. -/
def appendEntry (fileContent entry : List Char) (callout : Bool) : List Char :=
  if hasExistingEntry fileContent entry then
    fileContent
  else
    prepareContent fileContent callout ++ (entry ++ ['\n'])

/-- The `invalid_grant` / `invalid_token` condition of
`refreshAccessToken` (src/unnamed/part_004 lines 210-212): status 400
or 401 with an `error` field naming an invalid token. -/
def isInvalidGrantResponse : RefreshHttpResult → Prop
  | .httpError status errorCode =>
      (status = 400 ∨ status = 401) ∧
      (errorCode = some "invalid_grant" ∨ errorCode = some "invalid_token")
  | _ => False

instance : ∀ r, Decidable (isInvalidGrantResponse r) := fun r => by
  cases r <;> (unfold isInvalidGrantResponse; infer_instance)

/-- A token-endpoint outcome the source treats as transient
(retryable): a network failure, a non-ok response that is not an
explicit invalid_grant/invalid_token, or an ok response whose body
carries no access token. -/
def isTransientResponse : RefreshHttpResult → Prop
  | .fetchError => True
  | .httpError status errorCode =>
      ¬((status = 400 ∨ status = 401) ∧
        (errorCode = some "invalid_grant" ∨ errorCode = some "invalid_token"))
  | .ok body => body.access_token = ""

instance : ∀ r, Decidable (isTransientResponse r) := fun r => by
  cases r <;> (unfold isTransientResponse; infer_instance)

theorem splitLines_ne_nil (s : List Char) : splitLines s ≠ [] := by
  induction s with
  | nil => simp [splitLines]
  | cons ch rest ih =>
    simp only [splitLines]
    split
    · simp
    · split
      · simp
      · simp

theorem splitLines_append_newline (xs ys : List Char) :
    splitLines (xs ++ '\n' :: ys) = splitLines xs ++ splitLines ys := by
  induction xs with
  | nil => simp [splitLines]
  | cons ch rest ih =>
    by_cases h : ch = '\n'
    · subst h
      simp [splitLines, ih]
    · simp only [List.cons_append, splitLines, if_neg h]
      rcases hr : splitLines rest with _ | ⟨l, ls⟩
      · exact absurd hr (splitLines_ne_nil rest)
      · simp only [List.append_eq]
        rw [ih, hr]
        simp

theorem splitLines_of_no_newline (e : List Char) (h : '\n' ∉ e) :
    splitLines e = [e] := by
  induction e with
  | nil => simp [splitLines]
  | cons ch rest ih =>
    have hch : ch ≠ '\n' := fun hc => h (hc ▸ List.mem_cons_self ch rest)
    have hrest : '\n' ∉ rest := fun hm => h (List.mem_cons_of_mem ch hm)
    simp [splitLines, hch, ih hrest]

theorem exists_append_of_endsWithNewline (s : List Char)
    (h : endsWithNewline s = true) : ∃ t, s = t ++ ['\n'] := by
  unfold endsWithNewline at h
  rcases hr : s.reverse with _ | ⟨ch, t⟩ <;> rw [hr] at h
  · simp at h
  · have hch : ch = '\n' := by
      by_contra hne
      simp [hne] at h
    refine ⟨t.reverse, ?_⟩
    have hs : s = (ch :: t).reverse := by
      rw [← hr, List.reverse_reverse]
    rw [hs, List.reverse_cons, hch]

theorem endsWithNewline_append_newline (s : List Char) :
    endsWithNewline (s ++ ['\n']) = true := by
  unfold endsWithNewline
  simp

theorem prepareContent_nil_or_endsWithNewline (fileContent : List Char)
    (callout : Bool) :
    prepareContent fileContent callout = [] ∨
      endsWithNewline (prepareContent fileContent callout) = true := by
  unfold prepareContent
  by_cases hne : fileContent ≠ []
  · rw [if_pos hne]
    by_cases hc : callout
    · right
      simp [hc, endsWithNewline_append_newline]
    · simp only [hc, if_false]
      by_cases he : endsWithNewline fileContent = false
      · right
        simp [he, endsWithNewline_append_newline]
      · right
        simp only [he, if_false]
        simpa using he
  · left
    simp only [hne, if_false]
    simpa using hne

theorem entry_mem_splitLines (fc entry : List Char) (hnl : '\n' ∉ entry)
    (hfc : fc = [] ∨ endsWithNewline fc = true) :
    entry ∈ splitLines (fc ++ (entry ++ ['\n'])) := by
  have hself : splitLines (entry ++ ['\n']) = [entry, []] := by
    have : entry ++ ['\n'] = entry ++ '\n' :: [] := rfl
    rw [this, splitLines_append_newline, splitLines_of_no_newline entry hnl]
    rfl
  rcases hfc with rfl | h
  · simp [hself]
  · obtain ⟨t, rfl⟩ := exists_append_of_endsWithNewline fc h
    have : t ++ ['\n'] ++ (entry ++ ['\n']) = t ++ '\n' :: (entry ++ ['\n']) := by
      simp
    rw [this, splitLines_append_newline, hself]
    exact List.mem_append_right _ (List.mem_cons_self entry [[]])

theorem hasExistingEntry_append_self (fc entry : List Char)
    (hnl : '\n' ∉ entry) (hfc : fc = [] ∨ endsWithNewline fc = true) :
    hasExistingEntry (fc ++ (entry ++ ['\n'])) entry = true := by
  unfold hasExistingEntry
  rw [List.any_eq_true]
  exact ⟨entry, entry_mem_splitLines fc entry hnl hfc, by simp⟩

/-- C4 — counterexample to the claim as stated: for the two-line
candidate entry `"a\nb"` the second `appendEntry` call does not detect
the previously appended entry (the equivalence check is line-based),
so a duplicate is appended and the content after the second call
differs from the content after the first. -/
theorem C4_counterexample :
    appendEntry (appendEntry [] ("a\nb").toList false) ("a\nb").toList false ≠
      appendEntry [] ("a\nb").toList false := by
  decide

/-- C4 (amended): for every document content and every
single-line candidate entry (one containing no newline — a rendered
journal entry is a single line), calling the append operation twice
with the same entry yields content after the second call identical to
the content after the first call: the second call detects the
equivalent entry and is a no-op. -/
theorem C4_append_idempotent (content entry : List Char) (callout : Bool)
    (hnl : '\n' ∉ entry) :
    appendEntry (appendEntry content entry callout) entry callout =
      appendEntry content entry callout := by
  cases h : hasExistingEntry content entry with
  | true => simp [appendEntry, h]
  | false =>
    have hr : appendEntry content entry callout =
        prepareContent content callout ++ (entry ++ ['\n']) := by
      simp [appendEntry, h]
    have hmem :
        hasExistingEntry (prepareContent content callout ++ (entry ++ ['\n'])) entry
          = true :=
      hasExistingEntry_append_self _ _ hnl
        (prepareContent_nil_or_endsWithNewline content callout)
    rw [hr]
    simp [appendEntry, hmem]

/-- C4 — witness: appending the weight entry twice to a document
leaves the content of the first append unchanged. -/
theorem C4_append_idempotent_witness :
    appendEntry (appendEntry ("x").toList ("- [b] Weight: 80 kg").toList false)
        ("- [b] Weight: 80 kg").toList false =
      appendEntry ("x").toList ("- [b] Weight: 80 kg").toList false :=
  C4_append_idempotent ("x").toList ("- [b] Weight: 80 kg").toList false (by decide)

/-- C5: the equivalence check normalizes by stripping the leading
callout marker and the leading task/checkbox marker and trimming:
both the plain and the callout-wrapped weight entries normalize to
`"Weight: 80 kg"`, the check accepts the callout-wrapped candidate
against the plain document line and vice versa, and rejects the 81 kg
candidate against a document holding only the 80 kg line. -/
theorem C5_normalization :
    normalizeEntry ("> - [b] Weight: 80 kg").toList = ("Weight: 80 kg").toList ∧
    normalizeEntry ("- [b] Weight: 80 kg").toList = ("Weight: 80 kg").toList ∧
    hasExistingEntry ("- [b] Weight: 80 kg").toList
      ("> - [b] Weight: 80 kg").toList = true ∧
    hasExistingEntry ("> - [b] Weight: 80 kg").toList
      ("- [b] Weight: 80 kg").toList = true ∧
    hasExistingEntry ("- [b] Weight: 80 kg").toList
      ("- [b] Weight: 81 kg").toList = false := by
  refine ⟨?_, ?_, ?_, ?_, ?_⟩ <;> decide

/-- C6: for every credential with neither an access token nor a
refresh token, `refreshTokenIfNeeded` (the spec's `ensureValidToken`)
fails immediately with the AuthRequired-class `notAuthenticated`
error, leaves the credential untouched, and its event trace is empty —
in particular it contains no call to the token endpoint. -/
theorem C6_no_tokens_auth_required (c : Credential) (now : Int)
    (nows : Nat → Int) (rs : Nat → RefreshHttpResult)
    (hacc : c.googleAccessToken = "") (hrt : c.googleRefreshToken = "") :
    refreshTokenIfNeeded c now nows rs = (c, [], .error .notAuthenticated) ∧
    Ev.tokenEndpointCall ∉ (refreshTokenIfNeeded c now nows rs).2.1 ∧
    TokenError.notAuthenticated.isAuthRequired = true := by
  have h : refreshTokenIfNeeded c now nows rs = (c, [], .error .notAuthenticated) := by
    unfold refreshTokenIfNeeded
    simp [hacc, hrt]
  refine ⟨h, ?_, rfl⟩
  rw [h]
  simp

/-- C6 — witness: the initial empty credential fails with
`notAuthenticated` and an empty event trace. -/
theorem C6_no_tokens_auth_required_witness :
    refreshTokenIfNeeded Credential.empty 0 (fun _ => 0) (fun _ => .fetchError) =
      (Credential.empty, [], .error .notAuthenticated) ∧
    Ev.tokenEndpointCall ∉
      (refreshTokenIfNeeded Credential.empty 0 (fun _ => 0) (fun _ => .fetchError)).2.1 ∧
    TokenError.notAuthenticated.isAuthRequired = true :=
  C6_no_tokens_auth_required Credential.empty 0 (fun _ => 0) (fun _ => .fetchError)
    rfl rfl

/-- C7 — counterexample to the claim as stated: a received callback
that is missing the `code` parameter resolves the future with exactly
the same sentinel value `{ code: '', state: '' }` that the 5-minute
timeout resolves with — the two outcomes are not distinguishable. -/
theorem C7_counterexample :
    handleCallbackResult none (some "xyz789") = waitForCallbackTimeoutResult := by
  decide

/-- C7 (amended): the timeout outcome and the
received-with-missing-parameters outcome resolve with the same empty
sentinel `{ code: '', state: '' }` — they are not mutually
distinguishable; only a callback carrying both a non-empty code and a
non-empty state is distinguishable from the two failure modes, since
it resolves with the received non-empty pair. -/
theorem C7_sentinel (code state : Option String) :
    (strOptTruthy code = false ∨ strOptTruthy state = false →
      handleCallbackResult code state = waitForCallbackTimeoutResult) ∧
    (strOptTruthy code = true → strOptTruthy state = true →
      handleCallbackResult code state =
        { code := code.getD "", state := state.getD "" } ∧
      (handleCallbackResult code state).code ≠ "") := by
  constructor
  · intro h
    unfold handleCallbackResult waitForCallbackTimeoutResult
    rcases h with h | h <;> simp [h]
  · intro hc hs
    constructor
    · unfold handleCallbackResult
      simp [hc, hs]
    · unfold handleCallbackResult
      simp only [hc, hs, Bool.and_self, if_pos]
      cases code with
      | none => simp [strOptTruthy] at hc
      | some s =>
          simp only [Option.getD_some]
          simpa [strOptTruthy] using hc

/-- C7 — witness: a missing-code callback equals the timeout sentinel,
and a valid callback resolves with its non-empty parameters. -/
theorem C7_sentinel_witness :
    (strOptTruthy none = false ∨ strOptTruthy (some "s1") = false →
      handleCallbackResult none (some "s1") = waitForCallbackTimeoutResult) ∧
    (strOptTruthy none = true → strOptTruthy (some "s1") = true →
      handleCallbackResult none (some "s1") =
        { code := (none : Option String).getD "", state := (some "s1").getD "" } ∧
      (handleCallbackResult none (some "s1")).code ≠ "") :=
  C7_sentinel none (some "s1")

/-- C9 — counterexample to the claim as stated: one `getMeasurements`
call passes the 1-second gate once and then dispatches its two
outbound requests (weight, then body fat as soon as the weight
response arrives) with no further gating: with an instant weight
response the two consecutive outbound requests are dispatched 0 ms
apart, not at least 1000 ms. -/
theorem C9_counterexample :
    (getMeasurementsDispatchTimes 0 2000 0).2 -
      (getMeasurementsDispatchTimes 0 2000 0).1 = 0 ∧ (0 : Int) < 1000 := by
  constructor
  · decide
  · decide

/-- C9 (amended): the 1-second minimum spacing holds between
consecutive passages of the `rateLimit` gate — i.e. between the
dispatch starts of consecutive client operations (`getMeasurements` /
`addMeasurement`), which each call `rateLimit` once: the gated
dispatch time is always at least 1000 ms after the stored
`lastRequestTime`, and `lastRequestTime` is updated to the dispatch
time, so consecutive gated dispatches are at least 1000 ms apart.
Within a single operation the two category requests are not spaced. -/
theorem C9_rate_limit_gate (lastRequestTime now : Int) :
    1000 ≤ (rateLimit lastRequestTime now).1 - lastRequestTime ∧
    (rateLimit lastRequestTime now).2 = (rateLimit lastRequestTime now).1 := by
  unfold rateLimit
  by_cases h : now - lastRequestTime < 1000
  · simp only [if_pos h]
    constructor
    · omega
    · trivial
  · simp only [if_neg h]
    constructor
    · omega
    · trivial

/-- C10: a successful refresh response carrying an access token but no
`refresh_token` field updates the access token and expiry and leaves
the stored refresh token exactly as it was; the refresh token is
overwritten exactly when the response supplies a new one. -/
theorem C10_refresh_token_frame (c : Credential) (now : Int) (body : TokenBody)
    (hrt : c.googleRefreshToken ≠ "") (hacc : body.access_token ≠ "") :
    (refreshAccessToken c now (.ok body)).2.2 = .ok () ∧
    (refreshAccessToken c now (.ok body)).1.googleAccessToken = body.access_token ∧
    (refreshAccessToken c now (.ok body)).1.googleTokenExpiry =
      some (now + body.expires_in * 1000) ∧
    (refreshAccessToken c now (.ok body)).1.googleAuthState = c.googleAuthState ∧
    (body.refresh_token = "" →
      (refreshAccessToken c now (.ok body)).1.googleRefreshToken =
        c.googleRefreshToken) ∧
    (body.refresh_token ≠ "" →
      (refreshAccessToken c now (.ok body)).1.googleRefreshToken =
        body.refresh_token) := by
  unfold refreshAccessToken
  simp only [if_neg hrt, if_neg hacc]
  refine ⟨trivial, trivial, trivial, trivial, ?_, ?_⟩
  · intro h
    simp [h]
  · intro h
    simp [h]

/-- C10 — witness: a response with a fresh access token and no refresh
token preserves the stored refresh token `"R"`. -/
theorem C10_refresh_token_frame_witness :
    (refreshAccessToken (Credential.mk "A" "R" (some 10) (some "st")) 5
        (.ok (TokenBody.mk "A2" "" 3600))).2.2 = .ok () ∧
    (refreshAccessToken (Credential.mk "A" "R" (some 10) (some "st")) 5
        (.ok (TokenBody.mk "A2" "" 3600))).1.googleAccessToken = "A2" ∧
    (refreshAccessToken (Credential.mk "A" "R" (some 10) (some "st")) 5
        (.ok (TokenBody.mk "A2" "" 3600))).1.googleTokenExpiry =
      some (5 + 3600 * 1000) ∧
    (refreshAccessToken (Credential.mk "A" "R" (some 10) (some "st")) 5
        (.ok (TokenBody.mk "A2" "" 3600))).1.googleAuthState = some "st" ∧
    ((TokenBody.mk "A2" "" 3600).refresh_token = "" →
      (refreshAccessToken (Credential.mk "A" "R" (some 10) (some "st")) 5
          (.ok (TokenBody.mk "A2" "" 3600))).1.googleRefreshToken = "R") ∧
    ((TokenBody.mk "A2" "" 3600).refresh_token ≠ "" →
      (refreshAccessToken (Credential.mk "A" "R" (some 10) (some "st")) 5
          (.ok (TokenBody.mk "A2" "" 3600))).1.googleRefreshToken = "") :=
  C10_refresh_token_frame (Credential.mk "A" "R" (some 10) (some "st")) 5
    (TokenBody.mk "A2" "" 3600) (by decide) (by decide)

/-- C1 — counterexample to the claim as stated: an `invalid_grant`
refresh response clears the access token, refresh token and expiry but
does not clear the fourth credential field: `googleAuthState` (the
pendingAuthState) survives the clearing, so not all four fields are
cleared. -/
theorem C1_counterexample :
    (refreshAccessToken (Credential.mk "A" "R" (some 10) (some "st")) 0
        (.httpError 400 (some "invalid_grant"))).1.googleAuthState ≠ none := by
  decide

/-- C1 (amended): for every credential holding a refresh token, an
explicit `invalid_grant`/`invalid_token` refresh response clears the
three token fields (accessToken, refreshToken, expiry) — leaving
`pendingAuthState` unchanged — persists the cleared state, and fails
with the AuthRequired-class `reconnectRequired` error; a subsequent
`refreshTokenIfNeeded` (`ensureValidToken`) call on the resulting
state fails with the AuthRequired-class `notAuthenticated` error. -/
theorem C1_invalid_grant_clears (c : Credential) (now : Int)
    (r : RefreshHttpResult) (hrt : c.googleRefreshToken ≠ "")
    (hr : isInvalidGrantResponse r) :
    (refreshAccessToken c now r).1.googleAccessToken = "" ∧
    (refreshAccessToken c now r).1.googleRefreshToken = "" ∧
    (refreshAccessToken c now r).1.googleTokenExpiry = none ∧
    (refreshAccessToken c now r).1.googleAuthState = c.googleAuthState ∧
    (refreshAccessToken c now r).2.1 =
      [.tokenEndpointCall, .persist (refreshAccessToken c now r).1] ∧
    (refreshAccessToken c now r).2.2 = .error .reconnectRequired ∧
    TokenError.reconnectRequired.isAuthRequired = true ∧
    (∀ (now2 : Int) (nows2 : Nat → Int) (rs2 : Nat → RefreshHttpResult),
      refreshTokenIfNeeded (refreshAccessToken c now r).1 now2 nows2 rs2 =
        ((refreshAccessToken c now r).1, [], .error .notAuthenticated) ∧
      TokenError.notAuthenticated.isAuthRequired = true) := by
  cases r with
  | fetchError => exact absurd hr (by simp [isInvalidGrantResponse])
  | ok body => exact absurd hr (by simp [isInvalidGrantResponse])
  | httpError status errorCode =>
    have hcond : (status = 400 ∨ status = 401) ∧
        (errorCode = some "invalid_grant" ∨ errorCode = some "invalid_token") := hr
    have hres : refreshAccessToken c now (.httpError status errorCode) =
        (Credential.mk "" "" none c.googleAuthState,
         [.tokenEndpointCall,
          .persist (Credential.mk "" "" none c.googleAuthState)],
         .error .reconnectRequired) := by
      unfold refreshAccessToken
      rw [if_neg hrt]
      simp only [if_pos hcond]
    rw [hres]
    refine ⟨rfl, rfl, rfl, rfl, rfl, rfl, rfl, ?_⟩
    intro now2 nows2 rs2
    constructor
    · unfold refreshTokenIfNeeded
      simp
    · rfl

/-- C1 — witness: the concrete 400 `invalid_grant` response on a
credential holding refresh token `"R"` clears the access token. -/
theorem C1_invalid_grant_clears_witness :
    (refreshAccessToken (Credential.mk "A" "R" (some 10) (some "st")) 0
        (.httpError 400 (some "invalid_grant"))).1.googleAccessToken = "" :=
  (C1_invalid_grant_clears (Credential.mk "A" "R" (some 10) (some "st")) 0
      (.httpError 400 (some "invalid_grant")) (by decide) (by decide)).1

/-- C2 — counterexample to the claim as stated: when the exchange
fails (`request` throws), the previously persisted credential is NOT
left unchanged — the catch block of `completeAuthentication` clears
the access token, refresh token and expiry and persists the cleared
state. -/
theorem C2_counterexample :
    (completeAuthentication (Credential.mk "A" "R" (some 1) (some "s"))
        "authcode" "s" 0 .requestError).1 ≠
      Credential.mk "A" "R" (some 1) (some "s") := by
  decide

/-- C2 (amended): for every credential and every exchange performed by
`completeAuthentication` with a matching state, if the exchange fails
(the request throws or the response lacks a required token) then the
resulting credential is the fully-cleared one — access token, refresh
token and expiry all cleared, `pendingAuthState` left in place — the
cleared snapshot is persisted, and the result satisfies the
no-half-written-credential invariant (never an access token without
its expiry).  The prior credential is replaced wholesale, not
half-written. -/
theorem C2_exchange_failure_clears (c : Credential) (code state : String)
    (now : Int) (r : ExchangeResult) (e : TokenError)
    (hstate : c.googleAuthState = some state)
    (herr : (completeAuthentication c code state now r).2.2 = .error e) :
    (completeAuthentication c code state now r).1 =
      Credential.mk "" "" none c.googleAuthState ∧
    (completeAuthentication c code state now r).2.1 =
      [.tokenEndpointCall,
       .persist (Credential.mk "" "" none c.googleAuthState)] ∧
    (completeAuthentication c code state now r).1.wf := by
  have hmatch : ¬(c.googleAuthState ≠ some state) := by simp [hstate]
  cases r with
  | requestError =>
      have hres : completeAuthentication c code state now .requestError =
          (Credential.mk "" "" none c.googleAuthState,
           [.tokenEndpointCall,
            .persist (Credential.mk "" "" none c.googleAuthState)],
           .error .exchangeFailed) := by
        unfold completeAuthentication
        rw [if_neg hmatch]
      rw [hres]
      exact ⟨rfl, rfl, fun habs => absurd rfl habs⟩
  | ok tokens =>
      by_cases hbad : tokens.access_token = "" ∨ tokens.refresh_token = ""
      · have hres : completeAuthentication c code state now (.ok tokens) =
            (Credential.mk "" "" none c.googleAuthState,
             [.tokenEndpointCall,
              .persist (Credential.mk "" "" none c.googleAuthState)],
             .error .exchangeFailed) := by
          unfold completeAuthentication
          rw [if_neg hmatch]
          simp only [if_pos hbad]
        rw [hres]
        exact ⟨rfl, rfl, fun habs => absurd rfl habs⟩
      · exfalso
        have hres : (completeAuthentication c code state now (.ok tokens)).2.2 =
            .ok () := by
          unfold completeAuthentication
          rw [if_neg hmatch]
          simp only [if_neg hbad]
        rw [hres] at herr
        exact Except.noConfusion herr

/-- C2 — witness: a throwing exchange on a previously authenticated
credential yields the fully-cleared credential with the auth state
preserved. -/
theorem C2_exchange_failure_clears_witness :
    (completeAuthentication (Credential.mk "A" "R" (some 1) (some "s"))
        "authcode" "s" 0 .requestError).1 =
      Credential.mk "" "" none
        (Credential.mk "A" "R" (some 1) (some "s")).googleAuthState :=
  (C2_exchange_failure_clears (Credential.mk "A" "R" (some 1) (some "s"))
      "authcode" "s" 0 .requestError .exchangeFailed rfl rfl).1

theorem refreshAccessToken_transient (c : Credential) (now : Int)
    (r : RefreshHttpResult) (hrt : c.googleRefreshToken ≠ "")
    (h : isTransientResponse r) :
    refreshAccessToken c now r = (c, [.tokenEndpointCall], .error .tryAgainLater) := by
  cases r with
  | fetchError =>
      unfold refreshAccessToken
      rw [if_neg hrt]
  | httpError status errorCode =>
      have hcond : ¬((status = 400 ∨ status = 401) ∧
          (errorCode = some "invalid_grant" ∨ errorCode = some "invalid_token")) := h
      unfold refreshAccessToken
      rw [if_neg hrt]
      simp only [if_neg hcond]
  | ok body =>
      have hb : body.access_token = "" := h
      unfold refreshAccessToken
      rw [if_neg hrt]
      simp only [if_pos hb]

/-- C3: for every credential that holds a refresh token and needs a
refresh (no access token, falsy expiry, or inside the 5-minute
buffer), if both refresh attempts receive transient responses
(network failure, non-ok status that is not invalid_grant, or a body
without an access token), then `refreshTokenIfNeeded`
(`ensureValidToken`) performs exactly 2 token-endpoint calls with a
single 1000 ms delay between them, fails with the
TransientRefreshError-class `tryAgainLater` error, and leaves the
credential — in particular the stored refresh token — unchanged. -/
theorem C3_transient_retries (c : Credential) (now : Int)
    (nows : Nat → Int) (rs : Nat → RefreshHttpResult)
    (hrt : c.googleRefreshToken ≠ "")
    (hneed : c.googleAccessToken = "" ∨ numTruthy c.googleTokenExpiry = false ∨
      now ≥ c.googleTokenExpiry.getD 0 - 300000)
    (h0 : isTransientResponse (rs 0)) (h1 : isTransientResponse (rs 1)) :
    refreshTokenIfNeeded c now nows rs =
      (c, [.tokenEndpointCall, .delayMs 1000, .tokenEndpointCall],
       .error .tryAgainLater) ∧
    (refreshTokenIfNeeded c now nows rs).1.googleRefreshToken =
      c.googleRefreshToken := by
  have hno : ¬(c.googleAccessToken = "" ∧ c.googleRefreshToken = "") :=
    fun hcontra => hrt hcontra.2
  have e0 := refreshAccessToken_transient c (nows 0) (rs 0) hrt h0
  have e1 := refreshAccessToken_transient c (nows 1) (rs 1) hrt h1
  have hloop : refreshLoop nows rs c 0 2 none =
      (c, [.tokenEndpointCall, .delayMs 1000, .tokenEndpointCall],
       .error .tryAgainLater) := by
    have s1 : refreshLoop nows rs c 1 1 (some .tryAgainLater) =
        (c, [.tokenEndpointCall], .error .tryAgainLater) := by
      rw [show (1 : Nat) = 0 + 1 from rfl]
      unfold refreshLoop
      rw [e1]
      simp
    rw [show (2 : Nat) = 1 + 1 from rfl]
    unfold refreshLoop
    rw [e0]
    simp only [show (TokenError.tryAgainLater = TokenError.reconnectRequired) = False by
      simp, if_false]
    rw [if_pos (by norm_num)]
    rw [s1]
    rfl
  have hmain : refreshTokenIfNeeded c now nows rs =
      (c, [.tokenEndpointCall, .delayMs 1000, .tokenEndpointCall],
       .error .tryAgainLater) := by
    unfold refreshTokenIfNeeded
    rw [if_neg hno]
    rw [if_pos hneed, if_neg hrt]
    exact hloop
  exact ⟨hmain, by rw [hmain]⟩

/-- C3 — witness: a never-authenticated access token with refresh
token `"R"` and two network failures: two calls, one 1-second delay,
transient error, refresh token intact. -/
theorem C3_transient_retries_witness :
    refreshTokenIfNeeded (Credential.mk "" "R" none none) 0
        (fun _ => 0) (fun _ => .fetchError) =
      ((Credential.mk "" "R" none none),
       [.tokenEndpointCall, .delayMs 1000, .tokenEndpointCall],
       .error .tryAgainLater) ∧
    (refreshTokenIfNeeded (Credential.mk "" "R" none none) 0
        (fun _ => 0) (fun _ => .fetchError)).1.googleRefreshToken = "R" :=
  C3_transient_retries (Credential.mk "" "R" none none) 0
    (fun _ => 0) (fun _ => .fetchError) (by decide) (Or.inl rfl)
    trivial trivial

theorem refreshAccessToken_wf (c : Credential) (now : Int)
    (r : RefreshHttpResult) (h : c.wf) : (refreshAccessToken c now r).1.wf := by
  by_cases hrt : c.googleRefreshToken = ""
  · have hres : refreshAccessToken c now r = (c, [], .error .noRefreshToken) := by
      unfold refreshAccessToken
      rw [if_pos hrt]
    rw [hres]
    exact h
  · by_cases htr : isTransientResponse r
    · rw [refreshAccessToken_transient c now r hrt htr]
      exact h
    · cases r with
      | fetchError => exact absurd trivial htr
      | httpError status errorCode =>
          have htr2 : ¬¬((status = 400 ∨ status = 401) ∧
              (errorCode = some "invalid_grant" ∨ errorCode = some "invalid_token")) := htr
          have hcond := not_not.mp htr2
          have hres : refreshAccessToken c now (.httpError status errorCode) =
              (Credential.mk "" "" none c.googleAuthState,
               [.tokenEndpointCall,
                .persist (Credential.mk "" "" none c.googleAuthState)],
               .error .reconnectRequired) := by
            unfold refreshAccessToken
            rw [if_neg hrt]
            simp only [if_pos hcond]
          rw [hres]
          intro habs
          exact absurd rfl habs
      | ok body =>
          have hacc : body.access_token ≠ "" := htr
          have hres : refreshAccessToken c now (.ok body) =
              (Credential.mk body.access_token
                 (if body.refresh_token ≠ "" then body.refresh_token
                  else c.googleRefreshToken)
                 (some (now + body.expires_in * 1000)) c.googleAuthState,
               [.tokenEndpointCall,
                .persist (Credential.mk body.access_token
                   (if body.refresh_token ≠ "" then body.refresh_token
                    else c.googleRefreshToken)
                   (some (now + body.expires_in * 1000)) c.googleAuthState)],
               .ok ()) := by
            unfold refreshAccessToken
            rw [if_neg hrt]
            simp only [if_neg hacc]
          rw [hres]
          intro _
          simp

theorem refreshLoop_wf (nows : Nat → Int) (rs : Nat → RefreshHttpResult) :
    ∀ (n : Nat) (c : Credential) (i : Nat) (lastErr : Option TokenError),
      c.wf → (refreshLoop nows rs c i n lastErr).1.wf := by
  intro n
  induction n with
  | zero =>
      intro c i lastErr h
      exact h
  | succ m ih =>
      intro c i lastErr h
      unfold refreshLoop
      have hw := refreshAccessToken_wf c (nows i) (rs i) h
      rcases hra : refreshAccessToken c (nows i) (rs i) with ⟨c2, evs, res⟩
      rw [hra] at hw
      cases res with
      | ok u =>
          cases u
          exact hw
      | error e =>
          show (if e = TokenError.reconnectRequired then (c2, evs, Except.error e)
                else if m > 0 then
                  ((refreshLoop nows rs c2 (i + 1) m (some e)).1,
                   evs ++ [Ev.delayMs 1000] ++
                     (refreshLoop nows rs c2 (i + 1) m (some e)).2.1,
                   (refreshLoop nows rs c2 (i + 1) m (some e)).2.2)
                else (c2, evs, Except.error e)).1.wf
          split
          · exact hw
          · split
            · exact ih c2 (i + 1) (some e) hw
            · exact hw

theorem refreshTokenIfNeeded_wf (c : Credential) (now : Int)
    (nows : Nat → Int) (rs : Nat → RefreshHttpResult) (h : c.wf) :
    (refreshTokenIfNeeded c now nows rs).1.wf := by
  unfold refreshTokenIfNeeded
  split
  · exact h
  · split
    · split
      · intro habs
        exact absurd rfl habs
      · exact refreshLoop_wf nows rs 2 c 0 none h
    · exact h

theorem completeAuthentication_wf (c : Credential) (code state : String)
    (now : Int) (r : ExchangeResult) (h : c.wf) :
    (completeAuthentication c code state now r).1.wf := by
  by_cases hmis : c.googleAuthState ≠ some state
  · have hres : completeAuthentication c code state now r =
        (c, [], .error .invalidState) := by
      unfold completeAuthentication
      rw [if_pos hmis]
    rw [hres]
    exact h
  · cases r with
    | requestError =>
        have hres : completeAuthentication c code state now .requestError =
            (Credential.mk "" "" none c.googleAuthState,
             [.tokenEndpointCall,
              .persist (Credential.mk "" "" none c.googleAuthState)],
             .error .exchangeFailed) := by
          unfold completeAuthentication
          rw [if_neg hmis]
        rw [hres]
        intro habs
        exact absurd rfl habs
    | ok tokens =>
        by_cases hbad : tokens.access_token = "" ∨ tokens.refresh_token = ""
        · have hres : completeAuthentication c code state now (.ok tokens) =
              (Credential.mk "" "" none c.googleAuthState,
               [.tokenEndpointCall,
                .persist (Credential.mk "" "" none c.googleAuthState)],
               .error .exchangeFailed) := by
            unfold completeAuthentication
            rw [if_neg hmis]
            simp only [if_pos hbad]
          rw [hres]
          intro habs
          exact absurd rfl habs
        · have hres : completeAuthentication c code state now (.ok tokens) =
              (Credential.mk tokens.access_token tokens.refresh_token
                 (some (now + tokens.expires_in * 1000)) c.googleAuthState,
               [.tokenEndpointCall,
                .persist (Credential.mk tokens.access_token tokens.refresh_token
                   (some (now + tokens.expires_in * 1000)) c.googleAuthState)],
               .ok ()) := by
            unfold completeAuthentication
            rw [if_neg hmis]
            simp only [if_neg hbad]
          rw [hres]
          intro _
          simp

/-- C8: the invariant "if accessToken is present then expiry is
present" holds for the initial empty credential, a refresh token
alone (without access token or expiry) is a valid state, and the
invariant is preserved by every token-lifecycle operation —
`completeAuthentication`, `refreshAccessToken` and
`refreshTokenIfNeeded` — for every input, failure paths included. -/
theorem C8_invariant_preserved :
    Credential.empty.wf ∧
    (Credential.mk "" "R" none none).wf ∧
    (∀ (c : Credential) (code state : String) (now : Int) (r : ExchangeResult),
      c.wf → (completeAuthentication c code state now r).1.wf) ∧
    (∀ (c : Credential) (now : Int) (r : RefreshHttpResult),
      c.wf → (refreshAccessToken c now r).1.wf) ∧
    (∀ (c : Credential) (now : Int) (nows : Nat → Int)
        (rs : Nat → RefreshHttpResult),
      c.wf → (refreshTokenIfNeeded c now nows rs).1.wf) :=
  ⟨by decide, by decide,
   fun c code state now r h => completeAuthentication_wf c code state now r h,
   fun c now r h => refreshAccessToken_wf c now r h,
   fun c now nows rs h => refreshTokenIfNeeded_wf c now nows rs h⟩

/-- C8 — witness: a successful exchange on a well-formed credential
yields a well-formed credential. -/
theorem C8_invariant_preserved_witness :
    (completeAuthentication (Credential.mk "A" "R" (some 7) (some "s"))
        "x" "s" 3 (.ok (TokenBody.mk "A2" "R2" 60))).1.wf :=
  C8_invariant_preserved.2.2.1 (Credential.mk "A" "R" (some 7) (some "s"))
    "x" "s" 3 (.ok (TokenBody.mk "A2" "R2" 60)) (by decide)
